import Mathlib

/-!
Verification of the clock-steering adapter (pendulum-project/clock-steering).

Shallow embedding of `src/lib.rs` and `src/unix.rs`: the timestamp model and
its normalization, the kernel adjustment-record (`timex`) encoders, the error
taxonomy and errno translation, and the syscall-result plumbing of `now`,
`get_tai`, `set_leap_seconds`, `error_estimate_update` and `set_frequency`.

Machine integers are embedded as `Int`/`Nat` with explicit wrapping where the
Rust code performs (or can perform) wrapping casts or wrapping arithmetic.
Fallible syscalls are oracles: a function's `Except Error _` parameter stands
for the outcome the kernel produced for that call.
-/

namespace ClockSteering

/-- Wrap an unbounded integer into the value of an `i64` (`libc::time_t`,
`libc::c_long`), two's-complement semantics. -/
def wrap64 (x : Int) : Int := (x + 2 ^ 63) % 2 ^ 64 - 2 ^ 63

/-- Wrap an unbounded integer into the value of an `i32` (`libc::c_int`,
Rust's `as i32` cast), two's-complement semantics. -/
def wrap32 (x : Int) : Int := (x + 2 ^ 31) % 2 ^ 32 - 2 ^ 31

/-- Wrap an unbounded integer into a `u32` value (Rust's `as u32` cast). -/
def wrapU32 (x : Int) : Nat := (x % 2 ^ 32).toNat

/-- `libc::timespec`: seconds (`time_t`, i64) and nanoseconds (`c_long`, i64). -/
structure timespec where
  tv_sec : Int
  tv_nsec : Int
  deriving DecidableEq, Repr

/-- `libc::timeval`: seconds (`time_t`, i64) and microseconds
(`suseconds_t`, i64). -/
structure timeval where
  tv_sec : Int
  tv_usec : Int
  deriving DecidableEq, Repr

/-- `Timestamp` from `src/lib.rs`: `seconds: libc::time_t` and `nanos: u32`,
documented there as "Nanos must be between 0 and 999999999 inclusive". -/
structure Timestamp where
  seconds : Int
  nanos : Nat
  deriving DecidableEq, Repr

/-- `Precision` from `src/unix.rs`. -/
inductive Precision where
  | Nano
  | Micro
  deriving DecidableEq, Repr

/-- First while loop of `current_time_timespec`:
`while nanos > 1_000_000_000 { seconds = seconds.wrapping_add(1); nanos -= 1_000_000_000 }`. -/
def carryUp (seconds nanos : Int) : Int × Int :=
  if nanos > 1000000000 then
    carryUp (wrap64 (seconds + 1)) (nanos - 1000000000)
  else
    (seconds, nanos)
termination_by nanos.toNat
decreasing_by omega

/-- Second while loop of `current_time_timespec`:
`while nanos < 0 { seconds = seconds.wrapping_sub(1); nanos += 1_000_000_000 }`. -/
def carryDown (seconds nanos : Int) : Int × Int :=
  if nanos < 0 then
    carryDown (wrap64 (seconds - 1)) (nanos + 1000000000)
  else
    (seconds, nanos)
termination_by (-nanos).toNat
decreasing_by omega

/-- `i32::checked_mul(self, 1000).unwrap_or_default()`: the product if it fits
in an `i32`, otherwise `0`. -/
def checkedMul1000I32 (n : Int) : Int :=
  if -(2 ^ 31) ≤ n * 1000 ∧ n * 1000 < 2 ^ 31 then n * 1000 else 0

/-- `current_time_timespec` from `src/unix.rs`: cast `tv_nsec` to `i32`,
scale microsecond inputs by 1000 (checked, defaulting to 0 on overflow),
then run the two carry loops and reinterpret the now-nonnegative nanosecond
count as a `u32`. -/
def current_time_timespec (ts : timespec) (precision : Precision) : Timestamp :=
  let seconds := ts.tv_sec
  let nanos : Int := wrap32 ts.tv_nsec
  let nanos : Int :=
    match precision with
    | Precision.Nano => nanos
    | Precision.Micro => checkedMul1000I32 nanos
  let su := carryUp seconds nanos
  let sd := carryDown su.1 su.2
  { seconds := sd.1, nanos := sd.2.toNat }

/-- `u32::checked_mul(self, 1000).unwrap_or_default()`. -/
def checkedMul1000U32 (n : Nat) : Nat :=
  if n * 1000 < 2 ^ 32 then n * 1000 else 0

/-- `current_time_timeval` from `src/unix.rs`: `tv_usec as u32` taken as
nanoseconds directly at `Nano` precision, or scaled by 1000 (checked,
defaulting to 0) at `Micro` precision. -/
def current_time_timeval (tv : timeval) (precision : Precision) : Timestamp :=
  let seconds := tv.tv_sec
  let nanos : Nat :=
    match precision with
    | Precision.Nano => wrapU32 tv.tv_usec
    | Precision.Micro => checkedMul1000U32 (wrapU32 tv.tv_usec)
  { seconds := seconds, nanos := nanos }

/-! ## Kernel adjustment record (`libc::timex`, linux-gnu layout) and constants -/

/-- `libc::timex` (linux-gnu layout, the `__unusedN` padding omitted; every
field the code touches is present). -/
structure timex where
  modes : Int
  offset : Int
  freq : Int
  maxerror : Int
  esterror : Int
  status : Int
  constant : Int
  precision : Int
  tolerance : Int
  time : timeval
  tick : Int
  ppsfreq : Int
  jitter : Int
  shift : Int
  stabil : Int
  jitcnt : Int
  calcnt : Int
  errcnt : Int
  stbcnt : Int
  tai : Int
  deriving DecidableEq, Repr

/-- `EMPTY_TIMEX` from `src/unix.rs`: all fields zero. -/
def EMPTY_TIMEX : timex :=
  { modes := 0, offset := 0, freq := 0, maxerror := 0, esterror := 0
    status := 0, constant := 0, precision := 0, tolerance := 0
    time := { tv_sec := 0, tv_usec := 0 }
    tick := 0, ppsfreq := 0, jitter := 0, shift := 0, stabil := 0
    jitcnt := 0, calcnt := 0, errcnt := 0, stbcnt := 0, tai := 0 }

/-- `libc::MOD_FREQUENCY` (alias of `ADJ_FREQUENCY`) on Linux. -/
def MOD_FREQUENCY : Int := 0x0002
/-- `libc::MOD_MAXERROR` (alias of `ADJ_MAXERROR`) on Linux. -/
def MOD_MAXERROR : Int := 0x0004
/-- `libc::MOD_ESTERROR` (alias of `ADJ_ESTERROR`) on Linux. -/
def MOD_ESTERROR : Int := 0x0008
/-- `libc::MOD_STATUS` (alias of `ADJ_STATUS`) on Linux. -/
def MOD_STATUS : Int := 0x0010
/-- `libc::STA_INS` on Linux. -/
def STA_INS : Int := 0x0010
/-- `libc::STA_DEL` on Linux. -/
def STA_DEL : Int := 0x0020
/-- `libc::STA_UNSYNC` on Linux. -/
def STA_UNSYNC : Int := 0x0040
/-- `libc::STA_NANO` on Linux. -/
def STA_NANO : Int := 0x2000

/-- The status bits carrying the leap indicator (plus the unsynchronized
flag): `STA_INS | STA_DEL | STA_UNSYNC`. Reading the indicator back from a
status word means reading these bits. -/
def leapStatusMask : Int := Int.lor (Int.lor STA_INS STA_DEL) STA_UNSYNC

/-! ## Error taxonomy (`Error` enum and errno translation, `src/unix.rs`) -/

/-- `Error` from `src/unix.rs`. -/
inductive Error where
  | NoPermission
  | NoAccess
  | Invalid
  | NoDevice
  | NotSupported
  deriving DecidableEq, Repr

/-- `libc::EPERM` on Linux. -/
def EPERM : Int := 1
/-- `libc::EACCES` on Linux. -/
def EACCES : Int := 13
/-- `libc::EFAULT` on Linux. -/
def EFAULT : Int := 14
/-- `libc::ENODEV` on Linux. -/
def ENODEV : Int := 19
/-- `libc::EINVAL` on Linux. -/
def EINVAL : Int := 22
/-- `libc::EOPNOTSUPP` on Linux. -/
def EOPNOTSUPP : Int := 95

/-- `convert_errno` from `src/unix.rs`, with the observed errno as an explicit
argument. `none` models the `unreachable!` panics (for `EFAULT` and for any
code outside the translated set the function aborts instead of producing an
`Error` variant). -/
def convert_errno (code : Int) : Option Error :=
  if code = EINVAL then some Error.Invalid
  else if code = ENODEV then some Error.NoDevice
  else if code = EOPNOTSUPP then some Error.NotSupported
  else if code = EPERM then some Error.NoPermission
  else if code = EACCES then some Error.NoAccess
  else none

/-- `Error::into_raw_os_error` from `src/unix.rs`. -/
def Error.into_raw_os_error : Error → Int
  | Error.NoPermission => EPERM
  | Error.NoAccess => EACCES
  | Error.Invalid => EINVAL
  | Error.NoDevice => ENODEV
  | Error.NotSupported => EOPNOTSUPP

/-- `Error::ignore_not_supported` from `src/unix.rs`:
`Err(NotSupported)` becomes `Ok(())`, everything else passes through. -/
def Error.ignore_not_supported (res : Except Error Unit) : Except Error Unit :=
  match res with
  | Except.error Error.NotSupported => Except.ok ()
  | other => other

/-! ## Timestamp extraction and the oracle-based operations

Syscalls are modelled by oracle parameters: an `Except Error timex` stands for
the outcome of an `adjtime`-family call (with the record the kernel filled in
on success), an `Except Error timespec` for the outcome of a
`clock_gettime` call. -/

/-- `extract_current_time` from `src/unix.rs` (Linux path): when both
components of the record's embedded `time` field are non-zero, decode it at
the precision selected by the `STA_NANO` status bit (`match status & STA_NANO
{ 0 => Micro, _ => Nano }`); otherwise use the direct `clock_gettime` result
at nanosecond precision. -/
def extract_current_time (tx : timex) (gettimeRes : Except Error timespec) :
    Except Error Timestamp :=
  if tx.time.tv_sec ≠ 0 ∧ tx.time.tv_usec ≠ 0 then
    let precision :=
      if Int.land tx.status STA_NANO = 0 then Precision.Micro else Precision.Nano
    Except.ok (current_time_timeval tx.time precision)
  else
    Except.map (fun ts => current_time_timespec ts Precision.Nano) gettimeRes

/-- `UnixClock::now` from `src/unix.rs`: try the adjustment call on an empty
record; on success extract the time from the filled record (which may itself
fall back to a direct read), on any failure fall back to a direct
`clock_gettime` read at nanosecond precision. `adjRes` is the adjustment
call's outcome, `gettimeExtract` the direct-read outcome seen inside
`extract_current_time`, `gettimeFallback` the direct-read outcome of the
fallback branch. -/
def UnixClock.now (adjRes : Except Error timex)
    (gettimeExtract gettimeFallback : Except Error timespec) :
    Except Error Timestamp :=
  match adjRes with
  | Except.ok tx => extract_current_time tx gettimeExtract
  | Except.error _ =>
      Except.map (fun ts => current_time_timespec ts Precision.Nano) gettimeFallback

/-- `UnixClock::get_tai` from `src/unix.rs` (Linux path): on success of the
adjustment call return the record's `tai` field, on any failure return
`Ok(0)`. -/
def UnixClock.get_tai (adjRes : Except Error timex) : Except Error Int :=
  match adjRes with
  | Except.ok tx => Except.ok tx.tai
  | Except.error _ => Except.ok 0

/-! ## Leap indicator and status update -/

/-- `LeapIndicator` from `src/lib.rs`. -/
inductive LeapIndicator where
  | NoWarning
  | Leap61
  | Leap59
  | Unknown
  deriving DecidableEq, Repr

/-- `LeapIndicator::as_status_bit` from `src/unix.rs`. -/
def LeapIndicator.as_status_bit : LeapIndicator → Int
  | LeapIndicator.NoWarning => 0
  | LeapIndicator.Leap61 => STA_INS
  | LeapIndicator.Leap59 => STA_DEL
  | LeapIndicator.Unknown => STA_UNSYNC

/-- `UnixClock::update_status` from `src/unix.rs`, applied to the record the
kernel returned for the initial read: set `modes = MOD_STATUS` and transform
the status field. The result is the record written back by the second
`adjtime` call. -/
def update_status (current : timex) (f : Int → Int) : timex :=
  { current with modes := MOD_STATUS, status := f current.status }

/-- `UnixClock::set_leap_seconds` from `src/unix.rs`: the record written back,
given the record `current` read from the kernel — a read-modify-write that ORs
the indicator's status bit into the existing status. -/
def set_leap_seconds (current : timex) (leap_status : LeapIndicator) : timex :=
  update_status current (fun status => Int.lor status leap_status.as_status_bit)

/-! ## Frequency encoding

The Rust code computes `(ppm * 65536.0).round() as libc::c_long` on `f64`.
We embed the real-number computation over `ℚ`: the multiplication by
`65536 = 2^16` only changes the exponent of an `f64`, so it is exact for
every finite input, `f64::round` (half away from zero) is exact, and the
`as c_long` cast saturates at the `i64` bounds. -/

/-- `f64::round`: round half away from zero. -/
def rustRound (q : ℚ) : Int :=
  if 0 ≤ q then ⌊q + 1 / 2⌋ else ⌈q - 1 / 2⌉

/-- Rust's saturating float-to-`i64` `as` cast, on the exact value. -/
def saturateI64 (x : Int) : Int :=
  max (-(2 ^ 63)) (min (2 ^ 63 - 1) x)

/-- `UnixClock::set_frequency_timex` from `src/unix.rs`: encode a ppm
frequency adjustment as `round(ppm * 65536)` clamped to
`(-32_768_000 + 1, 32_768_000 - 1)`, with `modes = MOD_FREQUENCY`. -/
def set_frequency_timex (ppm : ℚ) : timex :=
  let frequency := saturateI64 (rustRound (ppm * 65536))
  { EMPTY_TIMEX with
      modes := MOD_FREQUENCY
      freq := max (-32768000 + 1) (min (32768000 - 1) frequency) }

/-! ## Error-estimate encoding -/

/-- `std::time::Duration`: `u64` seconds plus a sub-second nanosecond count
in `[0, 10^9)`. -/
structure Duration where
  secs : Nat
  subsec_nanos : Nat
  deriving DecidableEq, Repr

/-- `Duration::as_nanos`: the total nanosecond count as a `u128`
(never overflows 128 bits). -/
def Duration.as_nanos (d : Duration) : Nat :=
  d.secs * 1000000000 + d.subsec_nanos

/-- Rust `i64` division: truncation toward zero (`Int.div`). -/
def rustDiv (a b : Int) : Int := Int.tdiv a b

/-- `UnixClock::error_estimate_timex` from `src/unix.rs`:
`modes = MOD_ESTERROR | MOD_MAXERROR`, and each error field is
`duration.as_nanos() as libc::c_long / 1000` — the `u128` nanosecond count
wrapped into an `i64`, then divided by 1000. -/
def error_estimate_timex (est_error max_error : Duration) : timex :=
  let modes := Int.lor MOD_ESTERROR MOD_MAXERROR
  let esterror := rustDiv (wrap64 est_error.as_nanos) 1000
  let maxerror := rustDiv (wrap64 max_error.as_nanos) 1000
  { EMPTY_TIMEX with modes := modes, esterror := esterror, maxerror := maxerror }

/-! ## Frequency composition (spec §4.4) -/

/-- Modelled from the spec: the repository's code has no `compose` function
(it lives in the callers); spec §4.4 describes it as: convert the current raw
fixed-point field back to a PPM offset (`field / 65536`), convert that to a
rate multiplier (`1 - ppm / 1e6`), multiply by the caller's multiplier,
convert back to a PPM offset (`-(multiplier - 1) * 1e6`), and hand off to the
plain set-frequency encoder including its clamp. Returns the encoded `freq`
field. -/
def compose_frequency (current_field : Int) (multiplier : ℚ) : Int :=
  let ppm : ℚ := (current_field : ℚ) / 65536
  let rate : ℚ := 1 - ppm / 1000000
  let rate' : ℚ := rate * multiplier
  let ppm' : ℚ := -(rate' - 1) * 1000000
  (set_frequency_timex ppm').freq

/-! ## Helper lemmas -/

/-- Casting `Nat.lor` through `Int.lor`. -/
theorem int_natCast_lor (a b : Nat) :
    Int.lor (a : Int) (b : Int) = ((Nat.lor a b : Nat) : Int) := rfl

/-- Casting `Nat.land` through `Int.land`. -/
theorem int_natCast_land (a b : Nat) :
    Int.land (a : Int) (b : Int) = ((Nat.land a b : Nat) : Int) := rfl

/-- ORing a bit pattern in and then masking by it recovers the pattern. -/
theorem nat_lor_land_self (n b : Nat) : Nat.land (Nat.lor n b) b = b := by
  show (n ||| b) &&& b = b
  apply Nat.eq_of_testBit_eq
  intro i
  simp only [Nat.testBit_and, Nat.testBit_or]
  cases h : b.testBit i <;> simp

/-- `Nat.land` distributes over `Nat.lor` on the left argument. -/
theorem nat_land_lor_distrib (a b c : Nat) :
    Nat.land (Nat.lor a b) c = Nat.lor (Nat.land a c) (Nat.land b c) := by
  show (a ||| b) &&& c = (a &&& c) ||| (b &&& c)
  apply Nat.eq_of_testBit_eq
  intro i
  simp only [Nat.testBit_and, Nat.testBit_or]
  cases a.testBit i <;> cases b.testBit i <;> cases c.testBit i <;> rfl

/-- `rustRound` restricted to integers is the identity. -/
theorem rustRound_intCast (n : Int) : rustRound (n : ℚ) = n := by
  unfold rustRound
  split_ifs with h
  · have he : ((n : ℚ) + 1 / 2) = (1 / 2 : ℚ) + n := by ring
    rw [he, Int.floor_add_int]
    norm_num
  · have he : ((n : ℚ) - 1 / 2) = (-(1 / 2) : ℚ) + n := by ring
    rw [he, Int.ceil_add_int]
    norm_num

/-! ## Claim theorems -/

/-- Claim C1: the normalization in `current_time_timespec` is claimed to
always return `nanos ∈ [0, 999_999_999]`, in particular for the raw
nanosecond count exactly `1_000_000_000`. The code's carry loop uses the
strict comparison `nanos > 1_000_000_000`, so at that boundary input it
returns `nanos = 1_000_000_000`, outside the documented range (the claimed
normalization would give `seconds + 1, nanos = 0`): evaluation of the code at
the failing input. -/
theorem current_time_timespec_boundary_bug :
    current_time_timespec { tv_sec := 0, tv_nsec := 1000000000 } Precision.Nano
      = { seconds := 0, nanos := 1000000000 } ∧
    999999999 < (current_time_timespec { tv_sec := 0, tv_nsec := 1000000000 }
      Precision.Nano).nanos := by
  have h : current_time_timespec { tv_sec := 0, tv_nsec := 1000000000 } Precision.Nano
      = { seconds := 0, nanos := 1000000000 } := by
    unfold current_time_timespec
    norm_num [wrap32]
    rw [carryUp, carryDown]
    norm_num
    decide
  exact ⟨h, by rw [h]; norm_num⟩

/-- Claim C5: `Error::ignore_not_supported` maps `Err(NotSupported)` to
`Ok(())` and leaves every other result value unchanged. -/
theorem ignore_not_supported_spec :
    Error.ignore_not_supported (Except.error Error.NotSupported) = Except.ok () ∧
    (∀ r : Except Error Unit, r ≠ Except.error Error.NotSupported →
      Error.ignore_not_supported r = r) := by
  refine ⟨rfl, ?_⟩
  intro r h
  match r with
  | Except.ok () => rfl
  | Except.error Error.NoPermission => rfl
  | Except.error Error.NoAccess => rfl
  | Except.error Error.Invalid => rfl
  | Except.error Error.NoDevice => rfl
  | Except.error Error.NotSupported => exact absurd rfl h

/-- Claim C5 witness: `Ok(())` and a non-`NotSupported` error pass through
unchanged, by the theorem at those inputs. -/
theorem ignore_not_supported_spec_witness :
    Error.ignore_not_supported (Except.error Error.Invalid)
      = Except.error Error.Invalid ∧
    Error.ignore_not_supported (Except.ok ()) = Except.ok () :=
  ⟨ignore_not_supported_spec.2 (Except.error Error.Invalid) (by simp),
   ignore_not_supported_spec.2 (Except.ok ()) (by simp)⟩

/-- Claim C9: `now` never surfaces an error from the adjustment call — on any
adjustment failure it falls back to the direct `clock_gettime` read at
nanosecond precision, and `now` returns an error only when a direct read
itself failed (with that same error). -/
theorem now_error_fallback :
    (∀ (e : Error) (gt1 gt2 : Except Error timespec),
      UnixClock.now (Except.error e) gt1 gt2
        = Except.map (fun ts => current_time_timespec ts Precision.Nano) gt2) ∧
    (∀ (adjRes : Except Error timex) (gt1 gt2 : Except Error timespec) (e : Error),
      UnixClock.now adjRes gt1 gt2 = Except.error e →
        gt1 = Except.error e ∨ gt2 = Except.error e) := by
  constructor
  · intro e gt1 gt2
    rfl
  · intro adjRes gt1 gt2 e h
    cases adjRes with
    | error e0 =>
        right
        simp only [UnixClock.now] at h
        cases gt2 with
        | ok ts => simp [Except.map] at h
        | error e1 => simpa [Except.map] using h
    | ok tx =>
        left
        simp only [UnixClock.now, extract_current_time] at h
        split at h
        · simp at h
        · cases gt1 with
          | ok ts => simp [Except.map] at h
          | error e1 => simpa [Except.map] using h

/-- Claim C9 witness: with the adjustment call failing with `Invalid`, `now`
returns the mapped direct read; and when the fallback read fails with
`NoAccess`, that is the error surfaced. -/
theorem now_error_fallback_witness :
    UnixClock.now (Except.error Error.Invalid)
        (Except.ok { tv_sec := 9, tv_nsec := 9 })
        (Except.ok { tv_sec := 1, tv_nsec := 2 })
      = Except.map (fun ts => current_time_timespec ts Precision.Nano)
          (Except.ok { tv_sec := 1, tv_nsec := 2 }) ∧
    ((Except.ok { tv_sec := 9, tv_nsec := 9 } : Except Error timespec)
        = Except.error Error.NoAccess ∨
      (Except.error Error.NoAccess : Except Error timespec)
        = Except.error Error.NoAccess) :=
  ⟨now_error_fallback.1 Error.Invalid (Except.ok { tv_sec := 9, tv_nsec := 9 })
      (Except.ok { tv_sec := 1, tv_nsec := 2 }),
   now_error_fallback.2 (Except.error Error.Invalid)
      (Except.ok { tv_sec := 9, tv_nsec := 9 })
      (Except.error Error.NoAccess) Error.NoAccess rfl⟩

/-- Claim C10: on Linux, `get_tai` never returns an error: it returns the
record's `tai` field when the adjustment call succeeds and `Ok(0)` when the
call fails with any error kind. -/
theorem get_tai_spec :
    (∀ adjRes : Except Error timex, ∃ v : Int,
      UnixClock.get_tai adjRes = Except.ok v) ∧
    (∀ tx : timex, UnixClock.get_tai (Except.ok tx) = Except.ok tx.tai) ∧
    (∀ e : Error, UnixClock.get_tai (Except.error e) = Except.ok 0) := by
  refine ⟨?_, fun tx => rfl, fun e => rfl⟩
  intro adjRes
  match adjRes with
  | Except.ok tx => exact ⟨tx.tai, rfl⟩
  | Except.error e => exact ⟨0, rfl⟩

/-- Claim C2 counterexample: the claim requires a decode of the embedded time
field whenever that field is non-zero, but the code tests both components
(`tv_sec != 0 && tv_usec != 0`). With the non-zero embedded field
`(5, 0)` the code falls back to the direct clock read `(7, 3)` instead of
decoding the field (which at the reply's microsecond precision would give
timestamp `(5, 0)`). -/
theorem extract_current_time_nonzero_claim_false :
    ({ EMPTY_TIMEX with time := { tv_sec := 5, tv_usec := 0 } } : timex).time
        ≠ { tv_sec := 0, tv_usec := 0 } ∧
    extract_current_time { EMPTY_TIMEX with time := { tv_sec := 5, tv_usec := 0 } }
        (Except.ok { tv_sec := 7, tv_nsec := 3 })
      ≠ Except.ok (current_time_timeval { tv_sec := 5, tv_usec := 0 } Precision.Micro) := by
  constructor
  · simp
  · have hx : extract_current_time
        { EMPTY_TIMEX with time := { tv_sec := 5, tv_usec := 0 } }
        (Except.ok { tv_sec := 7, tv_nsec := 3 })
        = Except.ok (current_time_timespec { tv_sec := 7, tv_nsec := 3 } Precision.Nano) := by
      simp [extract_current_time, Except.map]
    have h7 : current_time_timespec { tv_sec := 7, tv_nsec := 3 } Precision.Nano
        = { seconds := 7, nanos := 3 } := by
      unfold current_time_timespec
      norm_num [wrap32]
      rw [carryUp, carryDown]
      norm_num
      decide
    rw [hx, h7]
    simp [current_time_timeval, checkedMul1000U32, wrapU32]

/-- Claim C2, amended: the embedded time field is decoded exactly when both
its components are non-zero (at microsecond precision unless the `STA_NANO`
status bit is set in the same reply, then nanosecond precision); when either
component is zero, the direct clock read at nanosecond precision is used
instead. -/
theorem extract_current_time_rule (tx : timex) (gt : Except Error timespec) :
    (tx.time.tv_sec ≠ 0 → tx.time.tv_usec ≠ 0 →
      extract_current_time tx gt
        = Except.ok (current_time_timeval tx.time
            (if Int.land tx.status STA_NANO = 0 then Precision.Micro
             else Precision.Nano))) ∧
    (tx.time.tv_sec = 0 ∨ tx.time.tv_usec = 0 →
      extract_current_time tx gt
        = Except.map (fun ts => current_time_timespec ts Precision.Nano) gt) := by
  constructor
  · intro h1 h2
    simp [extract_current_time, h1, h2]
  · intro h
    have hn : ¬(tx.time.tv_sec ≠ 0 ∧ tx.time.tv_usec ≠ 0) := by tauto
    simp only [extract_current_time, if_neg hn]

/-- Claim C2 witness: instantiating the amended rule — a reply with both time
components non-zero and `STA_NANO` clear decodes at microsecond precision; a
reply with a zero component uses the direct read. -/
theorem extract_current_time_rule_witness :
    extract_current_time
        { EMPTY_TIMEX with time := { tv_sec := 5, tv_usec := 250 } }
        (Except.ok { tv_sec := 7, tv_nsec := 3 })
      = Except.ok (current_time_timeval { tv_sec := 5, tv_usec := 250 }
          (if Int.land (0 : Int) STA_NANO = 0 then Precision.Micro
           else Precision.Nano)) ∧
    extract_current_time
        { EMPTY_TIMEX with time := { tv_sec := 0, tv_usec := 250 } }
        (Except.ok { tv_sec := 7, tv_nsec := 3 })
      = Except.map (fun ts => current_time_timespec ts Precision.Nano)
          (Except.ok { tv_sec := 7, tv_nsec := 3 }) :=
  ⟨(extract_current_time_rule
      { EMPTY_TIMEX with time := { tv_sec := 5, tv_usec := 250 } }
      (Except.ok { tv_sec := 7, tv_nsec := 3 })).1 (by norm_num) (by norm_num),
   (extract_current_time_rule
      { EMPTY_TIMEX with time := { tv_sec := 0, tv_usec := 250 } }
      (Except.ok { tv_sec := 7, tv_nsec := 3 })).2 (Or.inl rfl)⟩

/-- Claim C3 counterexample: `set_leap_seconds` ORs the indicator's bit into
the prior status, so with prior status `STA_INS` and indicator `NoWarning`
the leap status bits read back as `STA_INS`, not `NoWarning`'s bit value `0`:
the round trip fails for a dirty prior status word. -/
theorem set_leap_seconds_round_trip_false :
    Int.land (set_leap_seconds { EMPTY_TIMEX with status := STA_INS }
        LeapIndicator.NoWarning).status leapStatusMask = STA_INS ∧
    LeapIndicator.as_status_bit LeapIndicator.NoWarning = 0 ∧
    (STA_INS : Int) ≠ 0 := by
  refine ⟨?_, rfl, by decide⟩
  decide

/-- Claim C3, amended: `set_leap_seconds` is a read-modify-write that sets
`modes = MOD_STATUS`, clears no bit of the prior status word, and ORs in the
indicator's status bit; the round trip (reading the leap status bits back
recovers exactly the indicator's bit) holds when the prior status word has no
leap/unsync bit set, but a prior leap/unsync bit survives the OR, so it fails
in general. -/
theorem set_leap_seconds_props (n : Nat) (x : LeapIndicator) :
    (set_leap_seconds { EMPTY_TIMEX with status := (n : Int) } x).modes
        = MOD_STATUS ∧
    (∀ i, n.testBit i = true →
      (set_leap_seconds { EMPTY_TIMEX with status := (n : Int) } x).status.toNat.testBit i
        = true) ∧
    Int.land (set_leap_seconds { EMPTY_TIMEX with status := (n : Int) } x).status
        x.as_status_bit = x.as_status_bit ∧
    (Nat.land n 112 = 0 →
      Int.land (set_leap_seconds { EMPTY_TIMEX with status := (n : Int) } x).status
          leapStatusMask = x.as_status_bit) := by
  have hbit : ∃ b : Nat, x.as_status_bit = (b : Int) ∧ Nat.land b 112 = b := by
    cases x
    · exact ⟨0, rfl, rfl⟩
    · exact ⟨16, rfl, rfl⟩
    · exact ⟨32, rfl, rfl⟩
    · exact ⟨64, rfl, rfl⟩
  obtain ⟨b, hb, hb112⟩ := hbit
  have hstatus : (set_leap_seconds { EMPTY_TIMEX with status := (n : Int) } x).status
      = ((Nat.lor n b : Nat) : Int) := by
    simp only [set_leap_seconds, update_status, hb]
    exact int_natCast_lor n b
  refine ⟨rfl, ?_, ?_, ?_⟩
  · intro i hi
    rw [hstatus]
    simp only [Int.toNat_natCast]
    show (n ||| b).testBit i = true
    simp [Nat.testBit_or, hi]
  · rw [hstatus, hb, int_natCast_land, nat_lor_land_self]
  · intro h112
    rw [hstatus]
    have hmask : leapStatusMask = ((112 : Nat) : Int) := by decide
    rw [hmask, int_natCast_land, nat_land_lor_distrib, h112, hb112, hb]
    norm_num
    show (0 ||| b) = b
    simp

/-- Claim C3 witness: starting from a clean status word, each of the four
indicators round-trips (instantiated here for `Leap59`, prior status `0`, via
the theorem), and no prior bit is cleared (instantiated for prior status
`STA_PLL = 1`, bit 0). -/
theorem set_leap_seconds_props_witness :
    Int.land (set_leap_seconds { EMPTY_TIMEX with status := ((0 : Nat) : Int) }
        LeapIndicator.Leap59).status leapStatusMask
      = LeapIndicator.as_status_bit LeapIndicator.Leap59 ∧
    (set_leap_seconds { EMPTY_TIMEX with status := ((1 : Nat) : Int) }
        LeapIndicator.Leap61).status.toNat.testBit 0 = true :=
  ⟨(set_leap_seconds_props 0 LeapIndicator.Leap59).2.2.2 (by decide),
   (set_leap_seconds_props 1 LeapIndicator.Leap61).2.1 0 (by decide)⟩

/-- Claim C4: the `set_frequency` encoder sets `modes = MOD_FREQUENCY` and a
`freq` field that equals `round(ppm * 65536)` whenever that rounded value
lies within the clamp range, saturates to exactly `±(32_768_000 - 1)` when it
lies at or beyond either bound, and always lands inside the clamp range — the
encoder is total, so magnitude never produces an error. -/
theorem set_frequency_timex_spec (ppm : ℚ) :
    (set_frequency_timex ppm).modes = MOD_FREQUENCY ∧
    (-(32768000 - 1) ≤ (set_frequency_timex ppm).freq ∧
      (set_frequency_timex ppm).freq ≤ 32768000 - 1) ∧
    (-(32768000 - 1) ≤ rustRound (ppm * 65536) →
      rustRound (ppm * 65536) ≤ 32768000 - 1 →
      (set_frequency_timex ppm).freq = rustRound (ppm * 65536)) ∧
    (32768000 - 1 ≤ rustRound (ppm * 65536) →
      (set_frequency_timex ppm).freq = 32768000 - 1) ∧
    (rustRound (ppm * 65536) ≤ -(32768000 - 1) →
      (set_frequency_timex ppm).freq = -(32768000 - 1)) := by
  have hfreq : (set_frequency_timex ppm).freq
      = max (-32768000 + 1) (min (32768000 - 1)
          (saturateI64 (rustRound (ppm * 65536)))) := rfl
  unfold saturateI64 at hfreq
  refine ⟨rfl, ?_, ?_, ?_, ?_⟩ <;> rw [hfreq] <;> omega

/-- Claim C4 witness: `ppm = 100` rounds to `6_553_600`, inside the clamp
range, and is encoded exactly; `ppm = 1000` rounds to `65_536_000`, beyond
the upper bound, and saturates to `32_767_999`; `ppm = -1000` saturates to
`-32_767_999`. -/
theorem set_frequency_timex_spec_witness :
    (set_frequency_timex 100).freq = rustRound ((100 : ℚ) * 65536) ∧
    (set_frequency_timex 1000).freq = 32768000 - 1 ∧
    (set_frequency_timex (-1000)).freq = -(32768000 - 1) := by
  have h100 : rustRound ((100 : ℚ) * 65536) = 6553600 := by
    rw [show ((100 : ℚ) * 65536) = ((6553600 : Int) : ℚ) by norm_num]
    rw [rustRound_intCast]
  have h1000 : rustRound ((1000 : ℚ) * 65536) = 65536000 := by
    rw [show ((1000 : ℚ) * 65536) = ((65536000 : Int) : ℚ) by norm_num]
    rw [rustRound_intCast]
  have hm1000 : rustRound ((-1000 : ℚ) * 65536) = -65536000 := by
    rw [show ((-1000 : ℚ) * 65536) = ((-65536000 : Int) : ℚ) by norm_num]
    rw [rustRound_intCast]
  exact ⟨(set_frequency_timex_spec 100).2.2.1 (by rw [h100]; norm_num)
            (by rw [h100]; norm_num),
         (set_frequency_timex_spec 1000).2.2.2.1 (by rw [h1000]; norm_num),
         (set_frequency_timex_spec (-1000)).2.2.2.2 (by rw [hm1000]; norm_num)⟩

/-- Claim C6: the errno translation sends `EINVAL`, `ENODEV`, `EOPNOTSUPP`,
`EPERM`, `EACCES` to the five `Error` variants, treats every other code as
unreachable (modelled `none`) rather than coercing it, and is mutually
inverse with `into_raw_os_error` on the five variants. -/
theorem convert_errno_spec :
    convert_errno EINVAL = some Error.Invalid ∧
    convert_errno ENODEV = some Error.NoDevice ∧
    convert_errno EOPNOTSUPP = some Error.NotSupported ∧
    convert_errno EPERM = some Error.NoPermission ∧
    convert_errno EACCES = some Error.NoAccess ∧
    (∀ code : Int, code ≠ EINVAL → code ≠ ENODEV → code ≠ EOPNOTSUPP →
      code ≠ EPERM → code ≠ EACCES → convert_errno code = none) ∧
    (∀ e : Error, convert_errno e.into_raw_os_error = some e) ∧
    (∀ (code : Int) (e : Error), convert_errno code = some e →
      e.into_raw_os_error = code) := by
  refine ⟨by decide, by decide, by decide, by decide, by decide, ?_, ?_, ?_⟩
  · intro code h1 h2 h3 h4 h5
    simp [convert_errno, h1, h2, h3, h4, h5]
  · intro e
    cases e <;> decide
  · intro code e h
    unfold convert_errno at h
    split_ifs at h with hc1 hc2 hc3 hc4 hc5 <;>
      · injection h with h'
        all_goals subst h'
        all_goals simp only [Error.into_raw_os_error, EINVAL, ENODEV,
          EOPNOTSUPP, EPERM, EACCES] at *
        all_goals omega

/-- Claim C6 witness: an unmapped code such as `2` (`ENOENT`) hits the
unreachable branch, and the reverse translation applied to the decoded
variant of `EACCES` recovers the code, via the theorem at those inputs. -/
theorem convert_errno_spec_witness :
    convert_errno 2 = none ∧ Error.into_raw_os_error Error.NoAccess = EACCES :=
  ⟨convert_errno_spec.2.2.2.2.2.1 2 (by decide) (by decide) (by decide)
      (by decide) (by decide),
   convert_errno_spec.2.2.2.2.2.2.2 EACCES Error.NoAccess
      convert_errno_spec.2.2.2.2.1⟩

/-- Claim C7 (spec-modelled, the repository has no `compose` in its source):
composing the current raw frequency field with multiplier exactly `1.0` —
field to PPM, PPM to rate multiplier, multiply, back to PPM, re-encode
through the set-frequency encoder with its clamp — reproduces the same
encoded field, for every field inside the kernel's clamp range. -/
theorem compose_frequency_identity (f : Int)
    (h1 : -(32768000 - 1) ≤ f) (h2 : f ≤ 32768000 - 1) :
    compose_frequency f 1 = f := by
  have hppm : (-(((1 : ℚ) - ((f : ℚ) / 65536) / 1000000) * 1 - 1) * 1000000) * 65536
      = (f : ℚ) := by
    field_simp
    ring
  unfold compose_frequency
  have hfreq := (set_frequency_timex_spec
      (-(((1 : ℚ) - ((f : ℚ) / 65536) / 1000000) * 1 - 1) * 1000000)).2.2.1
  rw [hppm, rustRound_intCast] at hfreq
  exact hfreq h1 h2

/-- Claim C7 witness: the current field `20 << 16 = 1_310_720` (20 ppm)
composed with multiplier `1.0` reproduces `1_310_720`, via the theorem. -/
theorem compose_frequency_identity_witness :
    compose_frequency 1310720 1 = 1310720 :=
  compose_frequency_identity 1310720 (by norm_num) (by norm_num)

/-- Claim C8 counterexample: `esterror` is the duration's `u128` nanosecond
count wrapped by the `as libc::c_long` cast before the division by 1000, so a
duration of exactly `2^63` nanoseconds (seconds `9_223_372_036`, sub-second
nanoseconds `854_775_808`) yields `-9_223_372_036_854_775`, not its
nanosecond count divided by 1000. -/
theorem error_estimate_timex_wrap_counterexample :
    (error_estimate_timex { secs := 9223372036, subsec_nanos := 854775808 }
        { secs := 9223372036, subsec_nanos := 854775808 }).esterror
      = -9223372036854775 ∧
    ((Duration.as_nanos { secs := 9223372036, subsec_nanos := 854775808 } / 1000
        : Nat) : Int) = 9223372036854775 ∧
    (-9223372036854775 : Int) ≠ 9223372036854775 := by
  refine ⟨?_, by decide, by decide⟩
  show rustDiv (wrap64 (Duration.as_nanos ⟨9223372036, 854775808⟩)) 1000
      = -9223372036854775
  decide

/-- Claim C8, amended: for duration inputs whose total nanosecond count fits
in an `i64` (below `2^63` nanoseconds, about 292 years), the record has
`modes = MOD_ESTERROR | MOD_MAXERROR = 12` and `esterror`/`maxerror` equal to
each duration's nanosecond count truncated to microseconds by integer
division by 1000; beyond that the `as c_long` cast wraps first. -/
theorem error_estimate_timex_spec (est_error max_error : Duration)
    (h1 : est_error.as_nanos < 2 ^ 63) (h2 : max_error.as_nanos < 2 ^ 63) :
    (error_estimate_timex est_error max_error).modes = 12 ∧
    (error_estimate_timex est_error max_error).esterror
      = ((est_error.as_nanos / 1000 : Nat) : Int) ∧
    (error_estimate_timex est_error max_error).maxerror
      = ((max_error.as_nanos / 1000 : Nat) : Int) := by
  have hw : ∀ n : Nat, n < 2 ^ 63 → wrap64 (n : Int) = (n : Int) := by
    intro n hn
    unfold wrap64
    omega
  have hdiv : ∀ n : Nat, Int.tdiv ((n : Nat) : Int) 1000 = ((n / 1000 : Nat) : Int) :=
    fun n => rfl
  unfold error_estimate_timex rustDiv
  dsimp only
  refine ⟨by decide, ?_, ?_⟩
  · rw [hw est_error.as_nanos h1, hdiv]
  · rw [hw max_error.as_nanos h2, hdiv]

/-- Claim C8 witness: estimated error `0.5 s` and maximum error `1.2 s`
encode to `esterror = 500_000` and `maxerror = 1_200_000` microseconds with
`modes = 12`, via the theorem at those inputs. -/
theorem error_estimate_timex_spec_witness :
    (error_estimate_timex { secs := 0, subsec_nanos := 500000000 }
        { secs := 1, subsec_nanos := 200000000 }).modes = 12 ∧
    (error_estimate_timex { secs := 0, subsec_nanos := 500000000 }
        { secs := 1, subsec_nanos := 200000000 }).esterror = 500000 ∧
    (error_estimate_timex { secs := 0, subsec_nanos := 500000000 }
        { secs := 1, subsec_nanos := 200000000 }).maxerror = 1200000 := by
  have h := error_estimate_timex_spec { secs := 0, subsec_nanos := 500000000 }
      { secs := 1, subsec_nanos := 200000000 } (by decide) (by decide)
  refine ⟨h.1, ?_, ?_⟩
  · rw [h.2.1]; decide
  · rw [h.2.2]; decide

end ClockSteering
